import Mathlib

/-!
Verification development for the screen-marker calibration choreography
(pupil_src/shared_modules/calibration_choreography/screen_marker_plugin.py).

The per-frame controller (recent_events), the site catalog (__site_locations),
the lifecycle entry points (start, stop) and the window callbacks
(on_window_key, on_window_mouse_button) are embedded as pure functions over an
explicit plugin-state record.  The dwell counter screen_marker_state is a
Python float that only ever takes integer values (initialised to 0.0,
incremented by 1, clamped by min against an integer, reset to 0); it is
modelled as a natural number.  clicks_to_close is a Python int that can go
negative, so it is modelled as an integer.  Positions are rational pairs,
timestamps are naturals, and gaze (pupil) samples are uninterpreted and
modelled as naturals.  Rendering, audio, logging and window management are external
collaborators and are not part of the state.
-/

namespace ScreenMarker

/-- Gaze dimensionality selector (from the missing base plugin module; only
its two values are needed by the site catalog). -/
inductive GazeDimensionality
  | GAZE_2D
  | GAZE_3D
deriving DecidableEq, Repr

/-- Choreography mode selector (from the missing base plugin module; only its
two values are needed by the site catalog). -/
inductive ChoreographyMode
  | CALIBRATION
  | ACCURACY_TEST
deriving DecidableEq, Repr

/-- One candidate detection returned by the external circle tracker: a marker
type tag plus an image-space and a normalized position. -/
structure Marker where
  marker_type : String
  img_pos : ℚ × ℚ
  norm_pos : ℚ × ℚ
deriving DecidableEq, Repr

/-- A reference sample as appended by recent_events: the dict
with keys norm_pos, screen_pos, timestamp. -/
structure RefSample where
  norm_pos : ℚ × ℚ
  screen_pos : ℚ × ℚ
  timestamp : Nat
deriving DecidableEq, Repr

/-- The per-frame external input consumed by recent_events: whether a video
frame was delivered, the raw detector output (circle_tracker.update), the
frame timestamp and the gaze batch (events with key pupil). -/
structure FrameInput where
  hasFrame : Bool
  markers : List Marker
  timestamp : Nat
  pupil : List Nat
deriving DecidableEq, Repr

/-- The plugin state relevant to the choreography core.  is_active is the
Active flag maintained by the missing base class (modelled from the spec:
start transitions Inactive to Active, stop transitions back). -/
structure PluginState where
  is_active : Bool
  screen_marker_state : Nat
  sample_duration : Nat
  lead_in : Nat
  lead_out : Nat
  active_site : Option (ℚ × ℚ)
  sites : List (ℚ × ℚ)
  ref_list : List RefSample
  pupil_list : List Nat
  clicks_to_close : Int
  pos : Option (ℚ × ℚ)
  on_position : Bool
  markers : List Marker
deriving DecidableEq, Repr

/-- The site catalog __site_locations: four fixed layouts keyed by
(dimensionality, mode), copied verbatim from the source.  The float
coordinates of the source (all multiples of 0.25) are modelled as exact
rationals, written with mkRat so that they are kernel-computable. -/
def site_locations (dim : GazeDimensionality) (mode : ChoreographyMode) :
    List (ℚ × ℚ) :=
  match dim, mode with
  | .GAZE_3D, .CALIBRATION =>
    [(mkRat 1 2, mkRat 1 2), (0, 1), (1, 1), (1, 0), (0, 0)]
  | .GAZE_3D, .ACCURACY_TEST =>
    [(mkRat 1 4, mkRat 1 2), (mkRat 1 2, mkRat 1 4),
     (mkRat 3 4, mkRat 1 2), (mkRat 1 2, mkRat 3 4)]
  | .GAZE_2D, .CALIBRATION =>
    [(mkRat 1 4, mkRat 1 2), (0, mkRat 1 2), (0, 1), (mkRat 1 2, 1), (1, 1),
     (1, mkRat 1 2), (1, 0), (mkRat 1 2, 0), (0, 0), (mkRat 3 4, mkRat 1 2)]
  | .GAZE_2D, .ACCURACY_TEST =>
    [(mkRat 1 2, mkRat 1 2), (mkRat 1 4, mkRat 1 4), (mkRat 1 4, mkRat 3 4),
     (mkRat 3 4, mkRat 3 4), (mkRat 3 4, mkRat 1 4)]

/-- The state after construction with the default arguments of the
constructor: sample_duration=40, lead_in=25, lead_out=5, counter 0,
clicks_to_close=5, empty site queue and lists, inactive. -/
def init : PluginState :=
  { is_active := false
    screen_marker_state := 0
    sample_duration := 40
    lead_in := 25
    lead_out := 5
    active_site := none
    sites := []
    ref_list := []
    pupil_list := []
    clicks_to_close := 5
    pos := none
    on_position := false
    markers := [] }

/-- The stop method.  Modelled from the spec: the base class
CalibrationChoreographyPlugin is not among the sources; per the spec the
super().stop() call transitions the routine out of Active (Completing, then
Inactive).  Audio, logging, window closing and the finalize hand-off of the
collected lists are external collaborators; the write-only attributes
smooth_pos and counter touched by stop are not read by the embedded core and
are not part of the state. -/
def stop (s : PluginState) : PluginState :=
  { s with is_active := false }

/-- The start method.  When the capture is not online it logs an error and
returns without touching any state.  Otherwise (super().start() is modelled
from the spec: it sets the Active flag) it materialises the site queue, pops
the first site as active, clears both sample lists, resets clicks_to_close
to 5 and opens the marker window (external).  The site catalog is non-empty
for every (dim, mode) pair, so the pop never faults; the empty branch below
is unreachable and returns the state unchanged. -/
def start (online : Bool) (dim : GazeDimensionality) (mode : ChoreographyMode)
    (s : PluginState) : PluginState :=
  if !online then s
  else
    match site_locations dim mode with
    | [] => s
    | site :: rest =>
      { s with
        is_active := true
        active_site := some site
        sites := rest
        ref_list := []
        pupil_list := []
        clicks_to_close := 5 }

/-- The per-frame update recent_events, embedded line by line from the
source.  The body runs only when the plugin is active and a video frame was
delivered.  If clicks_to_close has reached 0 the routine stops at once.
Otherwise the raw detections are filtered to marker_type == Ref, pos is the
normalized position of the first detection (none when there is no
detection), on_position holds when lead_in < counter < lead_in +
sample_duration, a reference sample (first detection position plus frame
timestamp) is appended whenever on_position and at least one detection, the
gaze batch is always appended, the counter is clamped by min (a no-op, since
on_position bounds it), and finally the counter advances by 1 unless it is
inside the sampling window with no detection, or, once it has reached
lead_in + sample_duration + lead_out, resets to 0 and either pops the next
site or stops when the queue is exhausted.  Rendering of the marker and the
status text are external and omitted. -/
def recent_events (s : PluginState) (events : FrameInput) : PluginState :=
  if s.is_active && events.hasFrame then
    if s.clicks_to_close ≤ 0 then stop s
    else
      let markers := events.markers.filter fun m => m.marker_type = "Ref"
      let pos : Option (ℚ × ℚ) :=
        match markers with
        | m :: _ => some m.norm_pos
        | [] => none
      let on_position : Bool :=
        decide (s.lead_in < s.screen_marker_state ∧
          s.screen_marker_state < s.lead_in + s.sample_duration)
      let ref_list : List RefSample :=
        match markers with
        | m :: _ =>
          if on_position then
            s.ref_list ++
              [{ norm_pos := m.norm_pos, screen_pos := m.img_pos,
                 timestamp := events.timestamp }]
          else s.ref_list
        | [] => s.ref_list
      let pupil_list := s.pupil_list ++ events.pupil
      let state1 : Nat :=
        if on_position && !markers.isEmpty then
          min (s.sample_duration + s.lead_in) s.screen_marker_state
        else s.screen_marker_state
      let s1 : PluginState :=
        { s with
          markers := markers
          pos := pos
          ref_list := ref_list
          pupil_list := pupil_list }
      if state1 < s.sample_duration + s.lead_in + s.lead_out then
        { s1 with
          screen_marker_state :=
            if !markers.isEmpty || !on_position then state1 + 1 else state1
          on_position := on_position }
      else
        match s.sites with
        | [] => stop { s1 with screen_marker_state := 0 }
        | site :: rest =>
          { s1 with
            screen_marker_state := 0
            active_site := some site
            sites := rest
            on_position := on_position }
  else s

/-- GLFW action tags relevant to the two window callbacks. -/
inductive GlfwAction
  | GLFW_PRESS
  | GLFW_RELEASE
  | GLFW_REPEAT
deriving DecidableEq, Repr

/-- The GLFW key code of the Escape key. -/
def GLFW_KEY_ESCAPE : Nat := 256

/-- The key callback on_window_key: an Escape press zeroes
clicks_to_close. -/
def on_window_key (key : Nat) (action : GlfwAction) (s : PluginState) :
    PluginState :=
  if action = .GLFW_PRESS ∧ key = GLFW_KEY_ESCAPE then
    { s with clicks_to_close := 0 }
  else s

/-- The mouse callback on_window_mouse_button: every button press decrements
clicks_to_close by one. -/
def on_window_mouse_button (action : GlfwAction) (s : PluginState) :
    PluginState :=
  if action = .GLFW_PRESS then
    { s with clicks_to_close := s.clicks_to_close - 1 }
  else s

/-- Run n per-frame updates starting at frame index i, feeding frame k the
input f k (so the frames consumed are f i, f (i+1), ..., f (i+n-1)). -/
def runSeg (f : Nat → FrameInput) (i : Nat) : Nat → PluginState → PluginState
  | 0, s => s
  | n + 1, s => recent_events (runSeg f i n s) (f (i + n))

/-- Run the first n per-frame updates, feeding frame k the input f k. -/
def runN (f : Nat → FrameInput) (n : Nat) (s : PluginState) : PluginState :=
  runSeg f 0 n s

/-- The state right after a successful start in 2D calibration mode from a
freshly constructed plugin. -/
def started2D : PluginState :=
  start true .GAZE_2D .CALIBRATION init

/-- A single Ref marker located at position p. -/
def refMarker (p : ℚ × ℚ) : Marker :=
  { marker_type := "Ref", img_pos := p, norm_pos := p }

/-- The site shown during frame n of the end-to-end scenario: with a
detection on every frame each dwell cycle takes exactly 71 frames, so frame
n displays site n / 71 of the 2D calibration catalog. -/
def siteSchedule (n : Nat) : ℚ × ℚ :=
  (site_locations .GAZE_2D .CALIBRATION).getD (n / 71) (0, 0)

/-- The input stream of the end-to-end scenario: every frame delivers video,
exactly one Ref detection at the currently displayed site, an increasing
timestamp and an empty gaze batch. -/
def oneMarkerInput (n : Nat) : FrameInput :=
  { hasFrame := true
    markers := [refMarker (siteSchedule n)]
    timestamp := n
    pupil := [] }

/-- The full 2D calibration site catalog. -/
def allSites : List (ℚ × ℚ) :=
  site_locations .GAZE_2D .CALIBRATION

/-- Site number c of the 2D calibration catalog. -/
def sitePt (c : Nat) : ℚ × ℚ :=
  allSites.getD c (0, 0)

/-- The reference samples collected during the first k dwell cycles of the
end-to-end scenario: during cycle c the counter takes the values 26..64 on
the 39 sampling frames 71c+26 .. 71c+64, each appending one sample at site
c with the frame index as timestamp. -/
def refsAfter (k : Nat) : List RefSample :=
  (List.range k).flatMap fun c =>
    (List.range 39).map fun j =>
      { norm_pos := sitePt c, screen_pos := sitePt c,
        timestamp := 71 * c + 26 + j }

/-- The plugin state at the start of dwell cycle k of the end-to-end
scenario (frame 71k), for 0 ≤ k ≤ 9: counter back at 0, site k active,
sites k+1.. still queued, 39k reference samples collected.  Cycle 0 is the
freshly started state. -/
def afterCycle : Nat → PluginState
  | 0 => started2D
  | k + 1 =>
    { is_active := true
      screen_marker_state := 0
      sample_duration := 40
      lead_in := 25
      lead_out := 5
      active_site := some (sitePt (k + 1))
      sites := allSites.drop (k + 2)
      ref_list := refsAfter (k + 1)
      pupil_list := []
      clicks_to_close := 5
      pos := some (sitePt k)
      on_position := false
      markers := [refMarker (sitePt k)] }

/-- The plugin state at the end of the end-to-end scenario (after frame 709,
the 710th frame): the 10th dwell cycle found the site queue empty on its
reset frame and stopped, with 390 reference samples collected. -/
def finalState : PluginState :=
  { is_active := false
    screen_marker_state := 0
    sample_duration := 40
    lead_in := 25
    lead_out := 5
    active_site := some (sitePt 9)
    sites := []
    ref_list := refsAfter 10
    pupil_list := []
    clicks_to_close := 5
    pos := some (sitePt 9)
    on_position := false
    markers := [refMarker (sitePt 9)] }

/-- Segments compose: running m+n frames from index i is running m frames
from i and then n frames from i+m. -/
theorem runSeg_add (f : Nat → FrameInput) (i m : Nat) :
    ∀ (n : Nat) (s : PluginState),
      runSeg f i (m + n) s = runSeg f (i + m) n (runSeg f i m s) := by
  intro n
  induction n with
  | zero => intro s; rfl
  | succ n ih =>
    intro s
    show recent_events (runSeg f i (m + n) s) (f (i + (m + n)))
      = recent_events (runSeg f (i + m) n (runSeg f i m s)) (f (i + m + n))
    rw [ih, Nat.add_assoc]

set_option maxRecDepth 40000 in
theorem cycle0 : runSeg oneMarkerInput 0 71 (afterCycle 0) = afterCycle 1 := by
  decide

set_option maxRecDepth 40000 in
theorem cycle1 : runSeg oneMarkerInput 71 71 (afterCycle 1) = afterCycle 2 := by
  decide

set_option maxRecDepth 40000 in
theorem cycle2 : runSeg oneMarkerInput 142 71 (afterCycle 2) = afterCycle 3 := by
  decide

set_option maxRecDepth 40000 in
theorem cycle3 : runSeg oneMarkerInput 213 71 (afterCycle 3) = afterCycle 4 := by
  decide

set_option maxRecDepth 40000 in
theorem cycle4 : runSeg oneMarkerInput 284 71 (afterCycle 4) = afterCycle 5 := by
  decide

set_option maxRecDepth 40000 in
theorem cycle5 : runSeg oneMarkerInput 355 71 (afterCycle 5) = afterCycle 6 := by
  decide

set_option maxRecDepth 40000 in
theorem cycle6 : runSeg oneMarkerInput 426 71 (afterCycle 6) = afterCycle 7 := by
  decide

set_option maxRecDepth 40000 in
theorem cycle7 : runSeg oneMarkerInput 497 71 (afterCycle 7) = afterCycle 8 := by
  decide

set_option maxRecDepth 40000 in
theorem cycle8 : runSeg oneMarkerInput 568 71 (afterCycle 8) = afterCycle 9 := by
  decide

set_option maxRecDepth 40000 in
theorem cycle9 : runSeg oneMarkerInput 639 71 (afterCycle 9) = finalState := by
  decide

/-- After 639 frames the end-to-end scenario has completed nine dwell
cycles, composed from the per-cycle computations. -/
theorem upTo639 : runSeg oneMarkerInput 0 639 started2D = afterCycle 9 := by
  have s1 : runSeg oneMarkerInput 0 71 started2D = afterCycle 1 := cycle0
  have s2 : runSeg oneMarkerInput 0 142 started2D = afterCycle 2 := by
    rw [show (142 : Nat) = 71 + 71 from rfl, runSeg_add, s1]; exact cycle1
  have s3 : runSeg oneMarkerInput 0 213 started2D = afterCycle 3 := by
    rw [show (213 : Nat) = 142 + 71 from rfl, runSeg_add, s2]; exact cycle2
  have s4 : runSeg oneMarkerInput 0 284 started2D = afterCycle 4 := by
    rw [show (284 : Nat) = 213 + 71 from rfl, runSeg_add, s3]; exact cycle3
  have s5 : runSeg oneMarkerInput 0 355 started2D = afterCycle 5 := by
    rw [show (355 : Nat) = 284 + 71 from rfl, runSeg_add, s4]; exact cycle4
  have s6 : runSeg oneMarkerInput 0 426 started2D = afterCycle 6 := by
    rw [show (426 : Nat) = 355 + 71 from rfl, runSeg_add, s5]; exact cycle5
  have s7 : runSeg oneMarkerInput 0 497 started2D = afterCycle 7 := by
    rw [show (497 : Nat) = 426 + 71 from rfl, runSeg_add, s6]; exact cycle6
  have s8 : runSeg oneMarkerInput 0 568 started2D = afterCycle 8 := by
    rw [show (568 : Nat) = 497 + 71 from rfl, runSeg_add, s7]; exact cycle7
  rw [show (639 : Nat) = 568 + 71 from rfl, runSeg_add, s8]; exact cycle8

/-- The end-to-end scenario reaches finalState after 710 frames. -/
theorem scenario_run : runN oneMarkerInput 710 started2D = finalState := by
  show runSeg oneMarkerInput 0 710 started2D = finalState
  rw [show (710 : Nat) = 639 + 71 from rfl, runSeg_add, upTo639]
  exact cycle9

/-- After 709 frames the end-to-end scenario sits 70 frames into its tenth
dwell cycle. -/
theorem scenario_709 :
    runN oneMarkerInput 709 started2D
      = runSeg oneMarkerInput 639 70 (afterCycle 9) := by
  show runSeg oneMarkerInput 0 709 started2D = _
  rw [show (709 : Nat) = 639 + 70 from rfl, runSeg_add, upTo639]

/-- After 700 frames the end-to-end scenario sits 61 frames into its tenth
dwell cycle. -/
theorem scenario_700 :
    runN oneMarkerInput 700 started2D
      = runSeg oneMarkerInput 639 61 (afterCycle 9) := by
  show runSeg oneMarkerInput 0 700 started2D = _
  rw [show (700 : Nat) = 639 + 61 from rfl, runSeg_add, upTo639]

/-- C7: the site catalog is a pure function returning, for the four
(dimensionality, mode) combinations, fixed non-empty ordered sequences of
lengths 5 (3D calibration), 4 (3D accuracy test), 10 (2D calibration) and
5 (2D accuracy test), all of whose positions lie in the unit square.
Determinism and order stability hold by construction, site_locations being
a pure Lean function of its two arguments. -/
theorem C7_theorem :
    (site_locations .GAZE_3D .CALIBRATION).length = 5 ∧
    (site_locations .GAZE_3D .ACCURACY_TEST).length = 4 ∧
    (site_locations .GAZE_2D .CALIBRATION).length = 10 ∧
    (site_locations .GAZE_2D .ACCURACY_TEST).length = 5 ∧
    site_locations .GAZE_3D .CALIBRATION ≠ [] ∧
    site_locations .GAZE_3D .ACCURACY_TEST ≠ [] ∧
    site_locations .GAZE_2D .CALIBRATION ≠ [] ∧
    site_locations .GAZE_2D .ACCURACY_TEST ≠ [] ∧
    ((site_locations .GAZE_3D .CALIBRATION).all fun p =>
      decide (0 ≤ p.1 ∧ p.1 ≤ 1 ∧ 0 ≤ p.2 ∧ p.2 ≤ 1)) = true ∧
    ((site_locations .GAZE_3D .ACCURACY_TEST).all fun p =>
      decide (0 ≤ p.1 ∧ p.1 ≤ 1 ∧ 0 ≤ p.2 ∧ p.2 ≤ 1)) = true ∧
    ((site_locations .GAZE_2D .CALIBRATION).all fun p =>
      decide (0 ≤ p.1 ∧ p.1 ≤ 1 ∧ 0 ≤ p.2 ∧ p.2 ≤ 1)) = true ∧
    ((site_locations .GAZE_2D .ACCURACY_TEST).all fun p =>
      decide (0 ≤ p.1 ∧ p.1 ≤ 1 ∧ 0 ≤ p.2 ∧ p.2 ≤ 1)) = true := by
  decide

/-- C8: when the capture is offline, start reports an error (external log
call) and returns the plugin state entirely unchanged: no site queue, no
cleared lists, no cancellation-counter reset, no Active transition, no
window. -/
theorem C8_theorem :
    ∀ (dim : GazeDimensionality) (mode : ChoreographyMode) (s : PluginState),
      start false dim mode s = s := by
  intro dim mode s
  rfl

/-- C8 witness: the offline start leaves the freshly constructed state
untouched in 2D calibration mode. -/
theorem C8_witness : start false .GAZE_2D .CALIBRATION init = init :=
  C8_theorem .GAZE_2D .CALIBRATION init

/-- Boolean check that a list of naturals is strictly increasing. -/
def strictlyIncreasing : List Nat → Bool
  | [] => true
  | [_] => true
  | a :: b :: rest => a < b && strictlyIncreasing (b :: rest)

set_option maxRecDepth 40000 in
/-- C2 (amended): starting in 2D calibration mode materialises a 10-site
queue; a dwell cycle with one detection per frame takes 71 frames (the
counter visits 0..70), and sampling happens on the 39 frames with counter
26..64, so feeding 71 frames per site with exactly one detection at the
displayed site and increasing timestamps ends with 390 reference samples
(one contiguous run of 39 per site, timestamps strictly increasing) and the
routine stops on the 710th frame, being still active after 709. -/
theorem C2_theorem :
    (site_locations .GAZE_2D .CALIBRATION).length = 10 ∧
    (runN oneMarkerInput 710 started2D).is_active = false ∧
    (runN oneMarkerInput 709 started2D).is_active = true ∧
    (runN oneMarkerInput 710 started2D).ref_list.length = 390 ∧
    (runN oneMarkerInput 710 started2D).ref_list.map RefSample.norm_pos
      = (site_locations .GAZE_2D .CALIBRATION).flatMap
          (fun p => List.replicate 39 p) ∧
    strictlyIncreasing
      ((runN oneMarkerInput 710 started2D).ref_list.map RefSample.timestamp)
      = true := by
  refine ⟨by decide, ?_, ?_, ?_, ?_, ?_⟩
  · rw [scenario_run]; decide
  · rw [scenario_709]; decide
  · rw [scenario_run]; decide
  · rw [scenario_run]; decide
  · rw [scenario_run]; decide

set_option maxRecDepth 40000 in
/-- C2 counterexample: after feeding 70 frames per site (700 frames in
total, each with exactly one detection at the displayed site and increasing
timestamps), the routine has not transitioned to Completing and the
reference list holds 386 samples, not 400. -/
theorem C2_counterexample :
    (runN oneMarkerInput 700 started2D).is_active = true ∧
    (runN oneMarkerInput 700 started2D).ref_list.length = 386 := by
  constructor
  · rw [scenario_700]; decide
  · rw [scenario_700]; decide

/-- The started state with the dwell counter forced to t, used to tabulate
the gate. -/
def c3State (t : Nat) : PluginState :=
  { started2D with screen_marker_state := t }

/-- C3: with leadIn=25, sampleDuration=40, leadOut=5, the per-frame gate
computes onPosition false for counter values t in [0,25], true on (25,65),
false on [65,70]; and on the frame where t has reached 70 the counter is
reset to 0 and the next site is popped from the queue. -/
theorem C3_theorem :
    ∀ t : Nat, t ≤ 70 →
      ((recent_events (c3State t) (oneMarkerInput 0)).on_position = true
        ↔ (25 < t ∧ t < 65)) ∧
      (t = 70 →
        (recent_events (c3State t) (oneMarkerInput 0)).screen_marker_state = 0
        ∧ (recent_events (c3State t) (oneMarkerInput 0)).active_site
            = some (sitePt 1)
        ∧ (recent_events (c3State t) (oneMarkerInput 0)).sites
            = allSites.drop 2) := by
  decide

/-- C3 witness at the concrete counter values 30 and 70. -/
theorem C3_witness :
    (((recent_events (c3State 30) (oneMarkerInput 0)).on_position = true
        ↔ (25 < 30 ∧ 30 < 65)) ∧
      (30 = 70 →
        (recent_events (c3State 30) (oneMarkerInput 0)).screen_marker_state = 0
        ∧ (recent_events (c3State 30) (oneMarkerInput 0)).active_site
            = some (sitePt 1)
        ∧ (recent_events (c3State 30) (oneMarkerInput 0)).sites
            = allSites.drop 2)) ∧
    (((recent_events (c3State 70) (oneMarkerInput 0)).on_position = true
        ↔ (25 < 70 ∧ 70 < 65)) ∧
      (70 = 70 →
        (recent_events (c3State 70) (oneMarkerInput 0)).screen_marker_state = 0
        ∧ (recent_events (c3State 70) (oneMarkerInput 0)).active_site
            = some (sitePt 1)
        ∧ (recent_events (c3State 70) (oneMarkerInput 0)).sites
            = allSites.drop 2)) :=
  ⟨C3_theorem 30 (by decide), C3_theorem 70 (by decide)⟩

/-- A started state sitting in the sampling window (counter 30). -/
def samplingState : PluginState :=
  { started2D with screen_marker_state := 30 }

/-- A frame carrying two simultaneous Ref detections. -/
def twoMarkerFrame : FrameInput :=
  { hasFrame := true
    markers := [refMarker (sitePt 0), refMarker (sitePt 5)]
    timestamp := 3
    pupil := [] }

/-- A started state whose cancellation counter has reached 0. -/
def cancelState : PluginState :=
  { started2D with clicks_to_close := 0 }

/-- A frame with no detection and a non-empty gaze batch. -/
def pupilFrame : FrameInput :=
  { hasFrame := true
    markers := []
    timestamp := 0
    pupil := [7, 8] }

/-- C1 counterexample: on an Active sampling frame (counter 30, so
onPosition holds) that carries two simultaneous Ref detections, the code
does append a reference sample (it warns but uses the first detection), so
the appended-only-if-detection-count-is-one reading is false. -/
theorem C1_counterexample :
    (twoMarkerFrame.markers.filter fun m => m.marker_type = "Ref").length = 2
    ∧ samplingState.lead_in < samplingState.screen_marker_state
    ∧ samplingState.screen_marker_state
        < samplingState.lead_in + samplingState.sample_duration
    ∧ (recent_events samplingState twoMarkerFrame).ref_list.length
        = samplingState.ref_list.length + 1 := by
  decide

/-- C1 (amended): on every Active frame with the cancellation counter still
positive, a reference sample is appended if and only if onPosition holds
and at least one Ref detection was observed; the sample records the
positions of the first detection and the frame timestamp.  In particular a frame with
two or more detections does append a sample. -/
theorem C1_theorem (s : PluginState) (ev : FrameInput)
    (ha : s.is_active = true) (hf : ev.hasFrame = true)
    (hc : 0 < s.clicks_to_close) :
    (recent_events s ev).ref_list =
      match ev.markers.filter (fun m => m.marker_type = "Ref") with
      | m :: _ =>
        if s.lead_in < s.screen_marker_state ∧
            s.screen_marker_state < s.lead_in + s.sample_duration then
          s.ref_list ++ [{ norm_pos := m.norm_pos, screen_pos := m.img_pos,
                           timestamp := ev.timestamp }]
        else s.ref_list
      | [] => s.ref_list := by
  have hc' : ¬ s.clicks_to_close ≤ 0 := by omega
  unfold recent_events
  rw [ha, hf]
  simp only [Bool.and_self, if_true]
  rw [if_neg hc']
  repeat' split
  all_goals simp_all [stop]

/-- C1 witness: the amended appending law instantiated on the two-detection
sampling frame. -/
theorem C1_witness :
    samplingState.is_active = true ∧ twoMarkerFrame.hasFrame = true ∧
    0 < samplingState.clicks_to_close ∧
    (recent_events samplingState twoMarkerFrame).ref_list =
      match twoMarkerFrame.markers.filter
          (fun m => m.marker_type = "Ref") with
      | m :: _ =>
        if samplingState.lead_in < samplingState.screen_marker_state ∧
            samplingState.screen_marker_state
              < samplingState.lead_in + samplingState.sample_duration then
          samplingState.ref_list ++
            [{ norm_pos := m.norm_pos, screen_pos := m.img_pos,
               timestamp := twoMarkerFrame.timestamp }]
        else samplingState.ref_list
      | [] => samplingState.ref_list :=
  ⟨rfl, rfl, by decide,
    C1_theorem samplingState twoMarkerFrame rfl rfl (by decide)⟩

/-- C4: on every Active frame with the counter still below
leadIn+sampleDuration+leadOut and the cancellation counter positive, the
counter advances by exactly 1, except that it holds steady when onPosition
holds and no Ref detection was observed; with two or more detections it
still advances. -/
theorem C4_theorem (s : PluginState) (ev : FrameInput)
    (ha : s.is_active = true) (hf : ev.hasFrame = true)
    (hc : 0 < s.clicks_to_close)
    (hlt : s.screen_marker_state
      < s.lead_in + s.sample_duration + s.lead_out) :
    (recent_events s ev).screen_marker_state =
      if s.lead_in < s.screen_marker_state ∧
          s.screen_marker_state < s.lead_in + s.sample_duration ∧
          ev.markers.filter (fun m => m.marker_type = "Ref") = [] then
        s.screen_marker_state
      else
        s.screen_marker_state + 1 := by
  have hc' : ¬ s.clicks_to_close ≤ 0 := by omega
  unfold recent_events
  rw [ha, hf]
  simp only [Bool.and_self, if_true]
  rw [if_neg hc']
  simp only [Nat.min_def]
  repeat' split
  all_goals simp_all [stop, List.isEmpty_iff]
  all_goals omega

/-- C4 witness: the advance rule instantiated on a dropout frame (counter
30 inside the sampling window, no detection), where the counter stalls. -/
theorem C4_witness :
    samplingState.is_active = true ∧ pupilFrame.hasFrame = true ∧
    0 < samplingState.clicks_to_close ∧
    samplingState.screen_marker_state
      < samplingState.lead_in + samplingState.sample_duration
        + samplingState.lead_out ∧
    (recent_events samplingState pupilFrame).screen_marker_state =
      (if samplingState.lead_in < samplingState.screen_marker_state ∧
          samplingState.screen_marker_state
            < samplingState.lead_in + samplingState.sample_duration ∧
          pupilFrame.markers.filter (fun m => m.marker_type = "Ref") = [] then
        samplingState.screen_marker_state
      else
        samplingState.screen_marker_state + 1) :=
  ⟨rfl, rfl, by decide, by decide,
    C4_theorem samplingState pupilFrame rfl rfl (by decide) (by decide)⟩

/-- C9 counterexample: on an Active frame that delivers a video frame and a
non-empty gaze batch but whose cancellation counter is 0, the routine stops
via the early return before the gaze append, so the batch is not appended
on that stop frame. -/
theorem C9_counterexample :
    cancelState.is_active = true ∧ pupilFrame.hasFrame = true ∧
    pupilFrame.pupil ≠ [] ∧
    (recent_events cancelState pupilFrame).is_active = false ∧
    (recent_events cancelState pupilFrame).pupil_list
      = cancelState.pupil_list := by
  decide

/-- C9 (amended): on every Active frame that delivers a video frame and
finds the cancellation counter still positive, the whole gaze batch is
appended to the gaze list, regardless of phase and detection count,
including the natural stop frame on site-queue exhaustion; only the
cancellation stop frame skips the append. -/
theorem C9_theorem (s : PluginState) (ev : FrameInput)
    (ha : s.is_active = true) (hf : ev.hasFrame = true)
    (hc : 0 < s.clicks_to_close) :
    (recent_events s ev).pupil_list = s.pupil_list ++ ev.pupil := by
  have hc' : ¬ s.clicks_to_close ≤ 0 := by omega
  unfold recent_events
  rw [ha, hf]
  simp only [Bool.and_self, if_true]
  rw [if_neg hc']
  repeat' split
  all_goals simp [stop]

/-- C9 witness: the gaze batch of a zero-detection frame is appended to the
freshly started state. -/
theorem C9_witness :
    started2D.is_active = true ∧ pupilFrame.hasFrame = true ∧
    0 < started2D.clicks_to_close ∧
    (recent_events started2D pupilFrame).pupil_list
      = started2D.pupil_list ++ pupilFrame.pupil :=
  ⟨rfl, rfl, by decide, C9_theorem started2D pupilFrame rfl rfl (by decide)⟩

/-- C5: the cancellation pathway: start resets clicks_to_close to 5; every
mouse-press cancel tick decrements it by exactly 1; a per-frame update that
finds it at or below 0 returns stop of the untouched state (so no detection
processing, no appends, no counter change happen on that frame, whatever
the dwell counter holds); and five ticks after a start bring the counter to
exactly 0, forcing completion on the next update regardless of the site
queue. -/
theorem C5_theorem (dim : GazeDimensionality) (mode : ChoreographyMode)
    (s0 s1 s2 : PluginState) (ev : FrameInput)
    (ha : s2.is_active = true) (hf : ev.hasFrame = true)
    (hc : s2.clicks_to_close ≤ 0) :
    (start true dim mode s0).clicks_to_close = 5 ∧
    (on_window_mouse_button .GLFW_PRESS s1).clicks_to_close
      = s1.clicks_to_close - 1 ∧
    recent_events s2 ev = stop s2 ∧
    (on_window_mouse_button .GLFW_PRESS (on_window_mouse_button .GLFW_PRESS
      (on_window_mouse_button .GLFW_PRESS (on_window_mouse_button .GLFW_PRESS
        (on_window_mouse_button .GLFW_PRESS
          (start true dim mode s0)))))).clicks_to_close = 0 := by
  refine ⟨?_, rfl, ?_, ?_⟩
  · cases dim <;> cases mode <;> rfl
  · unfold recent_events
    rw [ha, hf]
    simp only [Bool.and_self, if_true]
    rw [if_pos hc]
  · cases dim <;> cases mode <;> rfl

/-- C5 witness: the cancellation pathway instantiated on a 2D calibration
start and a zeroed-counter Active state. -/
theorem C5_witness :
    cancelState.is_active = true ∧ pupilFrame.hasFrame = true ∧
    cancelState.clicks_to_close ≤ 0 ∧
    ((start true .GAZE_2D .CALIBRATION init).clicks_to_close = 5 ∧
      (on_window_mouse_button .GLFW_PRESS init).clicks_to_close
        = init.clicks_to_close - 1 ∧
      recent_events cancelState pupilFrame = stop cancelState ∧
      (on_window_mouse_button .GLFW_PRESS (on_window_mouse_button .GLFW_PRESS
        (on_window_mouse_button .GLFW_PRESS
          (on_window_mouse_button .GLFW_PRESS (on_window_mouse_button
            .GLFW_PRESS (start true .GAZE_2D .CALIBRATION
              init)))))).clicks_to_close = 0) :=
  ⟨rfl, rfl, by decide,
    C5_theorem .GAZE_2D .CALIBRATION init init cancelState pupilFrame
      rfl rfl (by decide)⟩

/-- C10: while the marker window is up, a single Escape press zeroes
clicks_to_close, so the very next Active per-frame update returns stop of
the state, bypassing the five-decrement mouse path. -/
theorem C10_theorem (s : PluginState) (ev : FrameInput)
    (ha : s.is_active = true) (hf : ev.hasFrame = true) :
    (on_window_key GLFW_KEY_ESCAPE .GLFW_PRESS s).clicks_to_close = 0 ∧
    recent_events (on_window_key GLFW_KEY_ESCAPE .GLFW_PRESS s) ev
      = stop (on_window_key GLFW_KEY_ESCAPE .GLFW_PRESS s) := by
  constructor
  · rfl
  · show recent_events { s with clicks_to_close := 0 } ev
      = stop { s with clicks_to_close := 0 }
    unfold recent_events
    simp [ha, hf]

/-- C10 witness: Escape pressed on the freshly started 2D calibration
state, followed by a one-detection frame. -/
theorem C10_witness :
    started2D.is_active = true ∧ (oneMarkerInput 0).hasFrame = true ∧
    ((on_window_key GLFW_KEY_ESCAPE .GLFW_PRESS started2D).clicks_to_close
        = 0 ∧
      recent_events (on_window_key GLFW_KEY_ESCAPE .GLFW_PRESS started2D)
          (oneMarkerInput 0)
        = stop (on_window_key GLFW_KEY_ESCAPE .GLFW_PRESS started2D)) :=
  ⟨rfl, rfl, C10_theorem started2D (oneMarkerInput 0) rfl rfl⟩

/-- The configuration invariant of a run with the default constructor
arguments: durations 25/40/5 and a positive cancellation counter.  All its
fields are preserved by recent_events. -/
def GoodCfg (s : PluginState) : Prop :=
  s.lead_in = 25 ∧ s.sample_duration = 40 ∧ s.lead_out = 5 ∧
    0 < s.clicks_to_close

/-- The dynamics of (is_active, counter, queued sites) under one per-frame
update carrying at least one Ref detection, for the 25/40/5 configuration:
the counter climbs to 70 and then resets, popping a site or stopping. -/
def coreStep : Bool × Nat × Nat → Bool × Nat × Nat
  | (false, t, k) => (false, t, k)
  | (true, t, k) =>
    if t < 70 then (true, t + 1, k)
    else if k = 0 then (false, 0, 0)
    else (true, 0, k - 1)

/-- Iterate coreStep. -/
def coreRun : Nat → Bool × Nat × Nat → Bool × Nat × Nat
  | 0, c => c
  | n + 1, c => coreStep (coreRun n c)

/-- One per-frame update with at least one Ref detection tracks coreStep on
the (is_active, counter, queue length) projection and preserves the
configuration invariant. -/
theorem coreStep_sim (s : PluginState) (ev : FrameInput) (hg : GoodCfg s)
    (hf : ev.hasFrame = true)
    (hm : ev.markers.filter (fun m => m.marker_type = "Ref") ≠ []) :
    ((recent_events s ev).is_active,
      (recent_events s ev).screen_marker_state,
      (recent_events s ev).sites.length)
      = coreStep (s.is_active, s.screen_marker_state, s.sites.length) ∧
    GoodCfg (recent_events s ev) := by
  obtain ⟨h25, h40, h5, hcpos⟩ := hg
  cases hsa : s.is_active with
  | false =>
    constructor
    · simp [recent_events, hsa, coreStep]
    · simp [recent_events, hsa, GoodCfg, h25, h40, h5, hcpos]
  | true =>
    have hc' : ¬ s.clicks_to_close ≤ 0 := by omega
    unfold recent_events
    rw [hsa, hf]
    simp only [Bool.and_self, if_true]
    rw [if_neg hc']
    simp only [Nat.min_def]
    repeat' split
    all_goals
      simp_all [stop, coreStep, GoodCfg, List.isEmpty_iff, h25, h40, h5]
    all_goals (try omega)
    all_goals
      rw [if_neg (by omega : ¬ s.screen_marker_state < 70)]

/-- Any number of per-frame updates, each carrying at least one Ref
detection, tracks coreRun on the projection. -/
theorem coreRun_sim (f : Nat → FrameInput)
    (hf : ∀ n, (f n).hasFrame = true)
    (hm : ∀ n, (f n).markers.filter (fun m => m.marker_type = "Ref") ≠ [])
    (i : Nat) :
    ∀ (n : Nat) (s : PluginState), GoodCfg s →
      ((runSeg f i n s).is_active, (runSeg f i n s).screen_marker_state,
        (runSeg f i n s).sites.length)
        = coreRun n (s.is_active, s.screen_marker_state, s.sites.length) ∧
      GoodCfg (runSeg f i n s) := by
  intro n
  induction n with
  | zero => intro s hg; exact ⟨rfl, hg⟩
  | succ n ih =>
    intro s hg
    obtain ⟨hproj, hg2⟩ := ih s hg
    obtain ⟨hstep, hg3⟩ :=
      coreStep_sim (runSeg f i n s) (f (i + n)) hg2 (hf _) (hm _)
    refine ⟨?_, hg3⟩
    show ((recent_events (runSeg f i n s) (f (i + n))).is_active,
      (recent_events (runSeg f i n s) (f (i + n))).screen_marker_state,
      (recent_events (runSeg f i n s) (f (i + n))).sites.length)
      = coreStep (coreRun n
          (s.is_active, s.screen_marker_state, s.sites.length))
    rw [← hproj]
    exact hstep

set_option maxRecDepth 4000 in
/-- A full 71-frame dwell cycle of the core dynamics pops one site. -/
theorem core_cycle (m : Nat) : coreRun 71 (true, 0, m + 1) = (true, 0, m) :=
  rfl

/-- coreRun composes additively. -/
theorem coreRun_add (m n : Nat) (c : Bool × Nat × Nat) :
    coreRun (m + n) c = coreRun m (coreRun n c) := by
  induction m with
  | zero => simp [coreRun, Nat.zero_add]
  | succ m ih =>
    rw [Nat.succ_add]
    show coreStep (coreRun (m + n) c) = coreStep (coreRun m (coreRun n c))
    rw [ih]

/-- Draining m+1 sites (one active, m queued) takes exactly 71 frames per
site, after which the core dynamics has stopped. -/
theorem core_drain :
    ∀ m : Nat, coreRun (71 * (m + 1)) (true, 0, m) = (false, 0, 0) := by
  intro m
  induction m with
  | zero => rfl
  | succ m ih =>
    have h1 : 71 * (m + 1 + 1) = 71 * (m + 1) + 71 := by ring
    rw [h1, coreRun_add, core_cycle, ih]

set_option maxRecDepth 40000 in
/-- C6 counterexample: even in the best case (a detection on every frame),
after (leadIn+sampleDuration+leadOut) x siteCount = 70 x 10 = 700 frames
the 2D calibration run has not yet completed, because each dwell cycle
takes 71 frames (the counter visits 0..70); so the stated worst-case bound
is below even the best case. -/
theorem C6_counterexample :
    (runN oneMarkerInput (70 * 10) started2D).is_active = true := by
  show (runN oneMarkerInput 700 started2D).is_active = true
  rw [scenario_700]
  decide

set_option maxRecDepth 8000 in
/-- C6 (amended): provided a recognized Ref detection is present on every
frame (without this proviso the counter can stall forever inside the
sampling window) and absent any cancellation, every run started from a
fresh plugin terminates within (leadIn+sampleDuration+leadOut+1) x
siteCount = 71 x siteCount update frames, for all four
(dimensionality, mode) combinations. -/
theorem C6_theorem (f : Nat → FrameInput)
    (hf : ∀ n, (f n).hasFrame = true)
    (hm : ∀ n, (f n).markers.filter (fun m => m.marker_type = "Ref") ≠ []) :
    ∀ (dim : GazeDimensionality) (mode : ChoreographyMode),
      (runN f (71 * (site_locations dim mode).length)
          (start true dim mode init)).is_active = false := by
  intro dim mode
  have hg : GoodCfg (start true dim mode init) := by
    cases dim <;> cases mode <;> exact ⟨rfl, rfl, rfl, by decide⟩
  obtain ⟨hproj, -⟩ :=
    coreRun_sim f hf hm 0 (71 * (site_locations dim mode).length)
      (start true dim mode init) hg
  have hcore : coreRun (71 * (site_locations dim mode).length)
      ((start true dim mode init).is_active,
        (start true dim mode init).screen_marker_state,
        (start true dim mode init).sites.length)
      = (false, 0, 0) := by
    cases dim <;> cases mode
    · exact core_drain 9
    · exact core_drain 4
    · exact core_drain 4
    · exact core_drain 3
  exact congrArg Prod.fst (hproj.trans hcore)

set_option maxRecDepth 8000 in
/-- C6 witness: the bound instantiated on the 3D accuracy-test run (four
sites, 284 frames) fed one detection per frame. -/
theorem C6_witness :
    (runN oneMarkerInput
        (71 * (site_locations .GAZE_3D .ACCURACY_TEST).length)
        (start true .GAZE_3D .ACCURACY_TEST init)).is_active = false :=
  C6_theorem oneMarkerInput (fun n => rfl)
    (fun n => by simp [oneMarkerInput, refMarker]) .GAZE_3D .ACCURACY_TEST

end ScreenMarker
